import Mathlib

/-!
# Verification of the Live Activity Update Delivery Engine

Shallow embedding of the core of the `petl-live-la` repository:
the session store (`src/lib/session-store.ts`, both the in-memory draft and
the Vercel-KV-backed draft), the direct APNs push client
(`src/lib/apns-client.ts`), the provider (OneSignal) payload builders
(`src/lib/onesignal.ts`), and the cron delivery orchestrators
(`src/app/api/cron/update-live-activities/route.ts`,
`src/app/api/cron/push-updates/route.ts`, `src/unnamed/part_009`).

Conventions of the embedding:
* Timestamps (`Date.now()` milliseconds, Unix seconds) are `Int`, passed
  explicitly as a `now` parameter.
* `soc` and `timeToFullMinutes` are `Int` (the code treats them as integers);
  `watts` is a `Rat` (a JS float that the code only stores and forwards, never
  computes with).
* External I/O (the `fetch` calls, the KV backend, the JWT signing) is
  modelled by explicit outcome parameters (oracles): the embedded function
  receives the outcome the external world would have produced and computes
  exactly what the source computes from it.
* A JS `Map` is embedded as a list of entries in insertion order with unique
  keys; well-formedness (`Nodup` of the keys) is carried as a hypothesis where
  a theorem needs it.
-/

namespace PetlLiveLA

/-- The `state` snapshot stored per session
(`ActivitySession['state']` in `src/lib/session-store.ts`). -/
structure ChargeState where
  soc : Int
  watts : Rat
  timeToFullMinutes : Int
  isCharging : Bool
deriving DecidableEq, Repr

/-- One tracked session (`ActivitySession` in `src/lib/session-store.ts`). -/
structure ActivitySession where
  activityId : String
  playerId : String
  pushToken : String
  state : ChargeState
  lastUpdated : Int
deriving DecidableEq, Repr

/-! ## In-memory session store (`src/lib/session-store.ts`, first draft)

The JS module keeps `const sessions = new Map<string, ActivitySession>()`;
we embed the map as the list of its values in insertion order. -/

/-- The in-memory store: values of the `sessions` map, insertion order. -/
abbrev Store := List ActivitySession

/-- `getActivity` (session-store.ts, in-memory draft): `sessions.get(id) || null`. -/
def getActivity : Store → String → Option ActivitySession
  | [], _ => none
  | e :: rest, id => if e.activityId = id then some e else getActivity rest id

/-- `removeActivity` (session-store.ts, in-memory draft): `sessions.delete(id)`. -/
def removeActivity : Store → String → Store
  | [], _ => []
  | e :: rest, id =>
      if e.activityId = id then removeActivity rest id
      else e :: removeActivity rest id

/-- `updateActivityState` (session-store.ts, in-memory draft, lines 66-79):
replaces `state` and `lastUpdated` on the existing entry and returns `true`;
returns `false` leaving the map untouched when `sessions.get(id)` is absent. -/
def updateActivityState (s : Store) (id : String) (st : ChargeState) (now : Int) :
    Store × Bool :=
  match getActivity s id with
  | some _ =>
      (s.map (fun e =>
        if e.activityId = id then { e with state := st, lastUpdated := now } else e),
       true)
  | none => (s, false)

/-- `getAllActiveActivities` (session-store.ts, in-memory draft, lines 103-110):
a pure `filter` on `now - session.lastUpdated < staleThresholdMs`.  The JS
function performs no store mutation, which the embedding records by returning
the store unchanged alongside the filtered list. -/
def getAllActiveActivitiesMem (s : Store) (now staleThresholdMs : Int) :
    List ActivitySession × Store :=
  (s.filter (fun e => now - e.lastUpdated < staleThresholdMs), s)

/-- `cleanupStaleActivities` (session-store.ts, in-memory draft, lines 115-128):
deletes every entry with `now - lastUpdated ≥ staleThresholdMs`, returning the
number removed. -/
def cleanupStaleActivities (s : Store) (now staleThresholdMs : Int) : Store × Nat :=
  (s.filter (fun e => ¬ (now - e.lastUpdated ≥ staleThresholdMs)),
   (s.filter (fun e => now - e.lastUpdated ≥ staleThresholdMs)).length)

/-! ## KV-backed session store (`src/lib/session-store.ts`, second draft)

One record per activity under `la:activity:<id>`, plus an index set
`la:index` of all activity ids. -/

/-- The KV backing: the records (keyed by activity id) and the index set. -/
structure KVStore where
  records : List (String × ActivitySession)
  index : List String
deriving DecidableEq, Repr

/-- `kv.get(getActivityKey(id))`. -/
def kvGet : List (String × ActivitySession) → String → Option ActivitySession
  | [], _ => none
  | p :: rest, id => if p.1 = id then some p.2 else kvGet rest id

/-- `getActivity` (KV draft, lines 262-270): a plain read. -/
def kvGetActivity (s : KVStore) (id : String) : Option ActivitySession :=
  kvGet s.records id

/-- `removeActivity` (KV draft, lines 275-284): `kv.del` of the record plus
`kv.srem` from the index. -/
def kvRemoveActivity (s : KVStore) (id : String) : KVStore :=
  { records := (s.records.filter (fun p => ¬ p.1 = id)),
    index := s.index.filter (fun j => ¬ j = id) }

/-- `updateActivityState` (KV draft, lines 238-257): read, replace
`state`/`lastUpdated`, write back; `false` when the record is absent. -/
def kvUpdateActivityState (s : KVStore) (id : String) (st : ChargeState) (now : Int) :
    KVStore × Bool :=
  match kvGet s.records id with
  | some e =>
      ({ s with records := s.records.map (fun p =>
          if p.1 = id then (p.1, { e with state := st, lastUpdated := now }) else p) },
       true)
  | none => (s, false)

/-- The scan loop of `getAllActiveActivities` (KV draft, lines 297-307):
walks the index snapshot; a record younger than the threshold is collected,
a record at or beyond it is removed via `removeActivity`. -/
def kvScanActive (now staleThresholdMs : Int) :
    List String → KVStore → List ActivitySession → List ActivitySession × KVStore
  | [], s, acc => (acc, s)
  | id :: rest, s, acc =>
      match kvGet s.records id with
      | some sess =>
          if now - sess.lastUpdated < staleThresholdMs then
            kvScanActive now staleThresholdMs rest s (acc ++ [sess])
          else
            kvScanActive now staleThresholdMs rest (kvRemoveActivity s id) acc
      | none => kvScanActive now staleThresholdMs rest s acc

/-- `getAllActiveActivities` (KV draft, lines 290-316).  The `kv.smembers`
enumeration of the index is an external call and is supplied as an outcome:
on an exception the whole body is caught and the function returns the empty
list ("Return empty array on error to prevent cron job failures"), leaving
the store as it was. -/
def getAllActiveActivitiesKV (s : KVStore) (now staleThresholdMs : Int)
    (smembersOutcome : Except String (List String)) :
    List ActivitySession × KVStore :=
  match smembersOutcome with
  | .error _ => ([], s)
  | .ok index => kvScanActive now staleThresholdMs index s []

/-! ## Direct APNs push client (`src/lib/apns-client.ts`, `jose` draft) -/

/-- The five environment variables read by `loadConfig`
(apns-client.ts, lines 52-74).  `none` is an unset variable; the empty
string is set-but-falsy (JS `!key` is true for `""`). -/
structure APNsEnv where
  apnsKeyId : Option String
  apnsTeamId : Option String
  apnsKey : Option String
  apnsBundleId : Option String
  apnsEnvironment : Option String
deriving DecidableEq, Repr

/-- JS truthiness of an environment variable: set and non-empty. -/
def envPresent (v : Option String) : Bool :=
  match v with
  | some s => !s.isEmpty
  | none => false

/-- JS `a || b` on environment strings: `b` when `a` is unset or empty. -/
def envOrElse (v : Option String) (dflt : String) : String :=
  match v with
  | some s => if s.isEmpty then dflt else s
  | none => dflt

/-- `APNsConfig` (apns-client.ts, lines 27-33). -/
structure APNsConfig where
  keyId : String
  teamId : String
  key : String
  bundleId : String
  environment : String
deriving DecidableEq, Repr

/-- `loadConfig` (apns-client.ts, lines 52-74): `null` config when any of
`APNS_KEY_ID`, `APNS_TEAM_ID`, `APNS_KEY` is missing; `bundleId` falls back to
`'com.gopetl.PETL'` and `environment` to `'production'`. -/
def loadConfig (env : APNsEnv) : Option APNsConfig :=
  if envPresent env.apnsKeyId && envPresent env.apnsTeamId && envPresent env.apnsKey then
    some { keyId := (env.apnsKeyId.getD "")
           teamId := (env.apnsTeamId.getD "")
           key := (env.apnsKey.getD "")
           bundleId := envOrElse env.apnsBundleId "com.gopetl.PETL"
           environment := envOrElse env.apnsEnvironment "production" }
  else
    none

/-- `isConfigured` (apns-client.ts, lines 271-273): `this.config !== null`. -/
def isConfigured (env : APNsEnv) : Bool :=
  (loadConfig env).isSome

/-! ### Token signer (`generateJWT`, apns-client.ts lines 82-166)

The method runs on the single-threaded JS event loop.  Its synchronous
prefix — the cache check, the promise-cache check, the key normalization,
and the creation and registration of the signing promise — runs atomically;
an interleaving with another caller can happen only at `await` points, i.e.
after the promise is registered.  "n near-simultaneous callers" is therefore
embedded as n consecutive executions of the synchronous entry prefix with no
completion step in between. -/

/-- The signer's mutable fields (`jwtToken`, `jwtTokenExpiry`,
`jwtTokenPromise` of class `APNsClient`), plus a counter of signing
operations started (each started operation gets a fresh id, which doubles as
the identity of the shared in-flight promise). -/
structure SignerState where
  jwtToken : Option String
  jwtTokenExpiry : Int
  jwtTokenPromise : Option Nat
  opsStarted : Nat
deriving DecidableEq, Repr

/-- What one synchronous execution of the `generateJWT` entry prefix does for
its caller. -/
inductive JWTCallResult
  /-- returned the cached token (`now < expiry - 300`) -/
  | cached (tok : String)
  /-- returned the already-registered in-flight promise -/
  | joined (op : Nat)
  /-- registered a fresh signing promise (one signing operation starts) -/
  | started (op : Nat)
  /-- threw `'APNs not configured'` -/
  | notConfigured
  /-- threw the PEM-format error before any promise was registered -/
  | pemInvalid
deriving DecidableEq, Repr

/-- The synchronous entry prefix of `generateJWT` (apns-client.ts, lines
82-166), in source order: config guard; cached-token check with the 5-minute
buffer; reuse of a pending `jwtTokenPromise`; key normalization (trim, base64
unwrap, newline repair — a deterministic pure computation on `config.key`,
abstracted here as the boolean `pemOk`, its PEM-header check); finally the
registration of a fresh signing promise. -/
def generateJWTEntry (config : Option APNsConfig) (pemOk : Bool) (now : Int)
    (st : SignerState) : SignerState × JWTCallResult :=
  match config with
  | none => (st, .notConfigured)
  | some _ =>
      if st.jwtToken.isSome ∧ now < st.jwtTokenExpiry - 300 then
        (st, .cached (st.jwtToken.getD ""))
      else
        match st.jwtTokenPromise with
        | some p => (st, .joined p)
        | none =>
            if pemOk then
              ({ st with jwtTokenPromise := some st.opsStarted,
                         opsStarted := st.opsStarted + 1 },
               .started st.opsStarted)
            else (st, .pemInvalid)

/-- Settlement of the signing promise (the async block, apns-client.ts lines
134-163): on success the token is cached with a one-hour expiry and the
promise cache is cleared; on failure the promise cache is cleared.  Either
way the settled value is delivered to every awaiter of that promise. -/
def completeJWT (now : Int) (st : SignerState) (op : Nat)
    (res : Except String String) : SignerState :=
  if st.jwtTokenPromise = some op then
    match res with
    | .ok jwt =>
        { st with jwtToken := some jwt, jwtTokenExpiry := now + 3600,
                  jwtTokenPromise := none }
    | .error _ => { st with jwtTokenPromise := none }
  else st

/-- n consecutive executions of the `generateJWT` entry prefix (no completion
in between), returning the final signer state and each caller's result. -/
def iterateJWTEntries (config : Option APNsConfig) (pemOk : Bool) (now : Int) :
    Nat → SignerState → SignerState × List JWTCallResult
  | 0, st => (st, [])
  | n + 1, st =>
      let r := generateJWTEntry config pemOk now st
      let rest := iterateJWTEntries config pemOk now n r.1
      (rest.1, r.2 :: rest.2)

/-! ### `sendLiveActivityUpdate` (apns-client.ts, lines 188-266) -/

/-- The outcome of the `fetch` to the APNs gateway, as the source observes
it: a response with an HTTP status, the optional `apns-id` header and the
body text, or a thrown transport/protocol exception. -/
inductive FetchOutcome
  | response (status : Int) (apnsId : Option String) (body : String)
  | threw (msg : String)
deriving DecidableEq, Repr

/-- The outcome of the awaited `generateJWT()` call inside the `try`. -/
inductive JWTOutcome
  | token (jwt : String)
  | threw (msg : String)
deriving DecidableEq, Repr

/-- The structured result `{ success, responseId?, error? }`. -/
structure SendResult where
  success : Bool
  responseId : Option String
  error : Option String
deriving DecidableEq, Repr

/-- The `content-state` object of the APNs payload (apns-client.ts, lines
206-217): the four state fields copied verbatim — no clamping. -/
def apnsContentState (payload : ChargeState) : ChargeState :=
  { soc := payload.soc
    watts := payload.watts
    timeToFullMinutes := payload.timeToFullMinutes
    isCharging := payload.isCharging }

/-- `sendLiveActivityUpdate` (apns-client.ts, lines 188-266).  The unconfigured
guard returns a structured failure; the whole body is wrapped in `try/catch`,
so a thrown `generateJWT` and a thrown `fetch` both become structured
failures; `response.ok` (status 200-299) yields success with the `apns-id`
header (`'unknown'` when absent); any other status yields a failure whose
error carries the status and raw body. -/
def sendLiveActivityUpdate (config : Option APNsConfig) (jwtOutcome : JWTOutcome)
    (fetchOutcome : FetchOutcome) : SendResult :=
  match config with
  | none =>
      { success := false, responseId := none,
        error := some "APNs not configured - missing credentials" }
  | some _ =>
      match jwtOutcome with
      | .threw m => { success := false, responseId := none, error := some m }
      | .token _ =>
          match fetchOutcome with
          | .threw m => { success := false, responseId := none, error := some m }
          | .response status apnsId body =>
              if 200 ≤ status ∧ status ≤ 299 then
                { success := true, responseId := some (apnsId.getD "unknown"),
                  error := none }
              else
                { success := false, responseId := none,
                  error := some ("APNs error: " ++ toString status ++ " - " ++ body) }

/-! ## Provider (OneSignal) payload builders -/

/-- The `event_updates` object sent by the cron orchestrator's inline
OneSignal update (`src/unnamed/part_009`, lines 165-176, identically the
second draft of `update-live-activities/route.ts`): `timeToFullMinutes` is
clamped with `Math.max(0, ·)`. -/
def cronEventUpdates (soc : Int) (watts : Rat) (timeToFullMinutes : Int)
    (isCharging : Bool) : ChargeState :=
  { soc := soc
    watts := watts
    timeToFullMinutes := max 0 timeToFullMinutes
    isCharging := isCharging }

/-- The `event_updates` object built by `callOneSignal('update', body)`
(`src/lib/onesignal.ts`, lines 40-49): `body.state` is passed through
verbatim — no clamping — with a hard-coded default when absent. -/
def oneSignalUpdateEventUpdates (state : Option ChargeState) : ChargeState :=
  state.getD { soc := 85, watts := (15 : Rat) / 2, timeToFullMinutes := 18,
               isCharging := true }

/-! ## Delivery orchestrator
(`src/app/api/cron/update-live-activities/route.ts`, first draft)

One cycle: stale cleanup (10 minutes), then `getAllActiveActivities`
(10 minutes), then for each active session a `callOneSignal` call —
`'end'` when `!state.isCharging`, else `'update'` — and `removeActivity`
after a *successful* end.  The outcome of each `callOneSignal` call is an
oracle keyed by activity id. -/

/-- The operation name passed to `callOneSignal` for a session. -/
inductive OpKind
  | update
  | endOp
deriving DecidableEq, Repr

/-- Accumulated effect of one orchestrator run: the store, the provider
operations issued (in order), and the success/failure tallies. -/
structure CycleState where
  store : Store
  ops : List (String × OpKind)
  succeeded : Nat
  failed : Nat
deriving DecidableEq, Repr

/-- Processing of one active session (route.ts, lines 52-90): pick `'end'`
vs `'update'` from `isCharging`, call the provider; only a successful end
removes the session (`if (result.ok) { if (shouldEnd) removeActivity }`); a
failed call leaves the store untouched. -/
def processSession (sendOk : String → Bool) (cs : CycleState)
    (sess : ActivitySession) : CycleState :=
  let shouldEnd := !sess.state.isCharging
  let op := if shouldEnd then OpKind.endOp else OpKind.update
  let ok := sendOk sess.activityId
  { store := if ok && shouldEnd then removeActivity cs.store sess.activityId
             else cs.store
    ops := cs.ops ++ [(sess.activityId, op)]
    succeeded := cs.succeeded + (if ok then 1 else 0)
    failed := cs.failed + (if ok then 0 else 1) }

/-- One orchestrator cycle (`GET`, route.ts lines 18-105, after the auth
gate): `cleanupStaleActivities(10*60*1000)`, `getAllActiveActivities(10*60*1000)`,
then the per-session processing over the active snapshot. -/
def updateLiveActivitiesCycle (s : Store) (now : Int) (sendOk : String → Bool) :
    CycleState :=
  let s1 := (cleanupStaleActivities s now (10 * 60 * 1000)).1
  let active := (getAllActiveActivitiesMem s1 now (10 * 60 * 1000)).1
  active.foldl (processSession sendOk) ⟨s1, [], 0, 0⟩

/-! ### Scheduler-trigger auth gates -/

/-- The auth gate of `update-live-activities/route.ts` (first draft, lines
18-24) — also the gate of `push-updates/route.ts`:
`if (expectedSecret && cronSecret !== 'Bearer ' + expectedSecret) 401`.
`true` means the request is rejected with 401. -/
def rejectsRequestV1 (cronSecret authHeader : Option String) : Bool :=
  envPresent cronSecret &&
    !(authHeader == some ("Bearer " ++ cronSecret.getD ""))

/-- The auth gate of the `part_009` draft of the same endpoint (lines 10-17):
`if (!cronSecret || authHeader !== 'Bearer ' + cronSecret) 401`. -/
def rejectsRequestV2 (cronSecret authHeader : Option String) : Bool :=
  !envPresent cronSecret ||
    !(authHeader == some ("Bearer " ++ cronSecret.getD ""))

/-- The HTTP response of the scheduler trigger, as far as the claims reach:
401, or the JSON summary `{updated, failed, total, timestamp}`. -/
inductive CronResponse
  | unauthorized
  | summary (updated failed total : Nat)
deriving DecidableEq, Repr

/-- `GET` of `update-live-activities/route.ts` (first draft): the auth gate,
then one cycle and its summary (the `total` field is the number of active
sessions processed, which equals the number of provider calls issued). -/
def updateLiveActivitiesGET (cronSecret authHeader : Option String) (s : Store)
    (now : Int) (sendOk : String → Bool) : CronResponse × Store :=
  if rejectsRequestV1 cronSecret authHeader then (.unauthorized, s)
  else
    let c := updateLiveActivitiesCycle s now sendOk
    (.summary c.succeeded c.failed c.ops.length, c.store)

/-! ## Silent-push orchestrator (`src/app/api/cron/push-updates/route.ts`)

This route iterates `sessionStore.getAll()` and, per session, POSTs a
OneSignal live-activity update.  The `sessionStore` object itself (`getAll`,
`set`, `stats`) is not present under `src/` — only this caller is. -/

/-- The session shape consumed by the push-updates route: state fields are
top-level, and the timestamp field is `lastUpdate`. -/
structure CronSession where
  activityId : String
  soc : Int
  watts : Rat
  timeToFullMinutes : Int
  lastUpdate : Int
deriving DecidableEq, Repr

/-- The push-updates session store: values in insertion order. -/
abbrev CronStore := List CronSession

/-- Lookup by activity id in the push-updates store. -/
def cronStoreGet : CronStore → String → Option CronSession
  | [], _ => none
  | e :: rest, id => if e.activityId = id then some e else cronStoreGet rest id

/-- Modelled from the spec: `sessionStore.set(session)` of the push-updates
route is not under `src/` (only this caller is); §4.4's `store` contract —
"create-or-replace a session" keyed by the activity id — gives its embedding. -/
def cronStoreSet (s : CronStore) (sess : CronSession) : CronStore :=
  match s with
  | [] => [sess]
  | e :: rest =>
      if e.activityId = sess.activityId then sess :: rest
      else e :: cronStoreSet rest sess

/-- The outcome of one per-session OneSignal POST in the push-updates loop. -/
inductive PushOutcome
  | ok
  | httpError (status : Int) (body : String)
  | threw (msg : String)
deriving DecidableEq, Repr

/-- Accumulated effect of one push-updates run. -/
structure PushCycleState where
  store : CronStore
  pushed : Nat
  failed : Nat
deriving DecidableEq, Repr

/-- One iteration of the push-updates loop (route.ts, lines 53-98): on
`response.ok` the route sets `session.lastUpdate = Date.now()` and writes the
session back (`sessionStore.set`), counting it pushed; on a non-ok status or
a thrown exception it only counts a failure — the store is untouched. -/
def pushOne (outcome : String → PushOutcome) (now : Int) (cs : PushCycleState)
    (sess : CronSession) : PushCycleState :=
  match outcome sess.activityId with
  | .ok =>
      { store := cronStoreSet cs.store { sess with lastUpdate := now }
        pushed := cs.pushed + 1
        failed := cs.failed }
  | .httpError _ _ => { cs with failed := cs.failed + 1 }
  | .threw _ => { cs with failed := cs.failed + 1 }

/-- One push-updates cycle (route.ts, lines 22-113, after the auth and
credential gates): iterate the `getAll()` snapshot, threading the store. -/
def pushUpdatesCycle (s : CronStore) (now : Int)
    (outcome : String → PushOutcome) : PushCycleState :=
  s.foldl (pushOne outcome now) ⟨s, 0, 0⟩

/-! ## Concrete example inputs (used by witnesses and counterexamples) -/

/-- A scenario state (`chargePercent` 90, 8 W, 14 minutes to full, charging). -/
def stateEx : ChargeState := ⟨90, 8, 14, true⟩

/-- A state whose `minutesToFull` is negative. -/
def negEtaState : ChargeState := ⟨50, 5, -5, true⟩

/-- A session whose device has stopped charging (`isCharging = false`). -/
def sessA3 : ActivitySession := ⟨"A3", "p1", "tok1", ⟨80, 5, 10, false⟩, 0⟩

/-- A session last updated at time 0 (stale at `now = 660000` against a
10-minute threshold — the spec's 11-minutes-ago scenario). -/
def sessA2 : ActivitySession := ⟨"A2", "p2", "tok2", ⟨50, 5, 10, true⟩, 0⟩

/-- A fresh session (age 60 s at `now = 660000`). -/
def sessF1 : ActivitySession := ⟨"F1", "p3", "tok3", stateEx, 600000⟩

/-- A stale session under the id `"S1"`. -/
def sessS1 : ActivitySession := ⟨"S1", "p4", "tok4", stateEx, 0⟩

/-- A KV store holding one fresh and one stale session. -/
def kvEx : KVStore :=
  ⟨[("F1", sessF1), ("S1", sessS1)], ["F1", "S1"]⟩

/-- A push-updates session (spec scenario `A1`). -/
def cronSessA1 : CronSession := ⟨"A1", 90, 8, 14, 0⟩

/-- An environment with the three credential variables set but no
`APNS_BUNDLE_ID` and no `APNS_ENVIRONMENT`. -/
def apnsEnvNoBundle : APNsEnv :=
  ⟨some "KEYID123", some "TEAMID123", some "PEMKEY", none, none⟩

/-- A loaded APNs configuration. -/
def cfgEx : APNsConfig :=
  ⟨"KEYID123", "TEAMID123", "PEMKEY", "com.gopetl.PETL", "production"⟩

/-- The signer's state on a cold start: nothing cached, nothing in flight. -/
def signerCold : SignerState := ⟨none, 0, none, 0⟩

/-! ## Helper lemmas: in-memory store -/

theorem getActivity_removeActivity_self (s : Store) (id : String) :
    getActivity (removeActivity s id) id = none := by
  induction s with
  | nil => rfl
  | cons e rest ih =>
      by_cases h : e.activityId = id
      · simpa [removeActivity, h] using ih
      · simpa [removeActivity, getActivity, h] using ih

theorem getActivity_removeActivity_ne (s : Store) (id j : String) (h : id ≠ j) :
    getActivity (removeActivity s j) id = getActivity s id := by
  induction s with
  | nil => rfl
  | cons e rest ih =>
      simp only [removeActivity, getActivity]
      by_cases he : e.activityId = j
      · have hne : e.activityId ≠ id := fun hc => h (hc.symm.trans he)
        rw [if_pos he, if_neg hne, ih]
      · rw [if_neg he]
        by_cases hid : e.activityId = id
        · simp only [getActivity, if_pos hid]
        · simp only [getActivity, if_neg hid, ih]

theorem getActivity_eq_none_removeActivity (s : Store) (id j : String)
    (h : getActivity s id = none) :
    getActivity (removeActivity s j) id = none := by
  by_cases hij : id = j
  · subst hij; exact getActivity_removeActivity_self s id
  · rw [getActivity_removeActivity_ne s id j hij]; exact h

theorem getActivity_of_mem_nodup (s : Store) (sess : ActivitySession)
    (hnd : (s.map (fun e => e.activityId)).Nodup) (hmem : sess ∈ s) :
    getActivity s sess.activityId = some sess := by
  induction s with
  | nil => cases hmem
  | cons e rest ih =>
      rcases List.mem_cons.mp hmem with rfl | hmem'
      · simp [getActivity]
      · have hne : e.activityId ≠ sess.activityId := by
          intro hc
          have : e.activityId ∈ rest.map (fun x => x.activityId) := by
            rw [hc]; exact List.mem_map_of_mem _ hmem'
          exact (List.nodup_cons.mp hnd).1 this
        simp only [getActivity, hne, if_false]
        exact ih (List.nodup_cons.mp hnd).2 hmem'

theorem mem_filter_map_nodup {α β : Type} (f : α → β) (p : α → Bool) (l : List α)
    (hnd : (l.map f).Nodup) : ((l.filter p).map f).Nodup :=
  ((l.filter_sublist).map f).nodup hnd

/-! ## Helper lemmas: delivery orchestrator fold -/

theorem processSession_fold_ops (f : String → Bool) (l : List ActivitySession)
    (cs : CycleState) :
    (l.foldl (processSession f) cs).ops =
      cs.ops ++ l.map (fun e =>
        (e.activityId, if !e.state.isCharging then OpKind.endOp else OpKind.update)) := by
  induction l generalizing cs with
  | nil => simp
  | cons e rest ih =>
      simp only [List.foldl_cons, List.map_cons]
      rw [ih]
      simp [processSession]

theorem processSession_fold_frame (f : String → Bool) (id : String)
    (hf : f id = false) (l : List ActivitySession) (cs : CycleState) :
    getActivity (l.foldl (processSession f) cs).store id =
      getActivity cs.store id := by
  induction l generalizing cs with
  | nil => rfl
  | cons e rest ih =>
      rw [List.foldl_cons, ih]
      simp only [processSession]
      by_cases hcond : (f e.activityId && !e.state.isCharging) = true
      · have hne : id ≠ e.activityId := by
          intro hc
          rw [← hc, hf] at hcond
          simp at hcond
        simp only [hcond, if_pos rfl]
        simpa using getActivity_removeActivity_ne cs.store id e.activityId hne
      · simp [hcond]

theorem processSession_fold_none (f : String → Bool) (id : String)
    (l : List ActivitySession) (cs : CycleState)
    (h : getActivity cs.store id = none) :
    getActivity (l.foldl (processSession f) cs).store id = none := by
  induction l generalizing cs with
  | nil => exact h
  | cons e rest ih =>
      rw [List.foldl_cons]
      apply ih
      simp only [processSession]
      by_cases hcond : (f e.activityId && !e.state.isCharging) = true
      · simp only [hcond, if_pos rfl]
        exact getActivity_eq_none_removeActivity cs.store id e.activityId h
      · simpa [hcond] using h

theorem processSession_fold_removes (f : String → Bool)
    (sess : ActivitySession) (l : List ActivitySession) (cs : CycleState)
    (hmem : sess ∈ l) (hnc : sess.state.isCharging = false)
    (hok : f sess.activityId = true) :
    getActivity (l.foldl (processSession f) cs).store sess.activityId = none := by
  induction l generalizing cs with
  | nil => cases hmem
  | cons e rest ih =>
      rcases List.mem_cons.mp hmem with rfl | hmem'
      · rw [List.foldl_cons]
        apply processSession_fold_none
        simp only [processSession, hok, hnc]
        simpa using getActivity_removeActivity_self cs.store sess.activityId
      · rw [List.foldl_cons]
        exact ih _ hmem'

/-! ## Helper lemmas: push-updates store and fold -/

theorem cronStoreGet_set_self (s : CronStore) (sess : CronSession) :
    cronStoreGet (cronStoreSet s sess) sess.activityId = some sess := by
  induction s with
  | nil => simp [cronStoreSet, cronStoreGet]
  | cons e rest ih =>
      by_cases he : e.activityId = sess.activityId
      · simp [cronStoreSet, cronStoreGet, he]
      · simp only [cronStoreSet, if_neg he, cronStoreGet]
        exact ih

theorem cronStoreGet_set_ne (s : CronStore) (sess : CronSession) (id : String)
    (h : id ≠ sess.activityId) :
    cronStoreGet (cronStoreSet s sess) id = cronStoreGet s id := by
  induction s with
  | nil =>
      have : sess.activityId ≠ id := fun hc => h hc.symm
      simp [cronStoreSet, cronStoreGet, this]
  | cons e rest ih =>
      by_cases he : e.activityId = sess.activityId
      · have hne : sess.activityId ≠ id := fun hc => h hc.symm
        have hne' : e.activityId ≠ id := fun hc => h (hc.symm.trans he)
        simp only [cronStoreSet, if_pos he, cronStoreGet, if_neg hne, if_neg hne']
      · simp only [cronStoreSet, if_neg he, cronStoreGet]
        by_cases hid : e.activityId = id
        · rw [if_pos hid, if_pos hid]
        · rw [if_neg hid, if_neg hid, ih]

theorem cronStoreGet_of_mem_nodup (s : CronStore) (sess : CronSession)
    (hnd : (s.map (fun e => e.activityId)).Nodup) (hmem : sess ∈ s) :
    cronStoreGet s sess.activityId = some sess := by
  induction s with
  | nil => cases hmem
  | cons e rest ih =>
      rcases List.mem_cons.mp hmem with rfl | hmem'
      · simp [cronStoreGet]
      · have hne : e.activityId ≠ sess.activityId := by
          intro hc
          have : e.activityId ∈ rest.map (fun x => x.activityId) := by
            rw [hc]; exact List.mem_map_of_mem _ hmem'
          exact (List.nodup_cons.mp hnd).1 this
        simp only [cronStoreGet, if_neg hne]
        exact ih (List.nodup_cons.mp hnd).2 hmem'

theorem pushOne_fold_frame (outcome : String → PushOutcome) (now : Int)
    (id : String) (l : List CronSession) (cs : PushCycleState)
    (hl : ∀ e ∈ l, e.activityId ≠ id) :
    cronStoreGet (l.foldl (pushOne outcome now) cs).store id =
      cronStoreGet cs.store id := by
  induction l generalizing cs with
  | nil => rfl
  | cons e rest ih =>
      rw [List.foldl_cons, ih _ (fun x hx => hl x (List.mem_cons_of_mem _ hx))]
      have hne : id ≠ e.activityId := fun hc => hl e (List.mem_cons_self _ _) hc.symm
      cases houtcome : outcome e.activityId with
      | ok =>
          simp only [pushOne, houtcome]
          exact cronStoreGet_set_ne cs.store _ id hne
      | httpError st body => simp [pushOne, houtcome]
      | threw m => simp [pushOne, houtcome]

theorem pushOne_fold_get (outcome : String → PushOutcome) (now : Int)
    (sess : CronSession) (l : List CronSession) (cs : PushCycleState)
    (hnd : (l.map (fun e => e.activityId)).Nodup) (hmem : sess ∈ l) :
    (outcome sess.activityId = .ok →
      cronStoreGet (l.foldl (pushOne outcome now) cs).store sess.activityId =
        some { sess with lastUpdate := now }) ∧
    (outcome sess.activityId ≠ .ok →
      cronStoreGet (l.foldl (pushOne outcome now) cs).store sess.activityId =
        cronStoreGet cs.store sess.activityId) := by
  induction l generalizing cs with
  | nil => cases hmem
  | cons e rest ih =>
      have hrest : ∀ x ∈ rest, x.activityId ≠ e.activityId := by
        intro x hx hc
        exact (List.nodup_cons.mp hnd).1 (List.mem_map.mpr ⟨x, hx, hc⟩)
      rcases List.mem_cons.mp hmem with rfl | hmem'
      · constructor
        · intro hok
          rw [List.foldl_cons,
              pushOne_fold_frame outcome now sess.activityId rest _ hrest]
          simp only [pushOne, hok]
          exact cronStoreGet_set_self cs.store _
        · intro hfail
          rw [List.foldl_cons,
              pushOne_fold_frame outcome now sess.activityId rest _ hrest]
          cases houtcome : outcome sess.activityId with
          | ok => exact absurd houtcome hfail
          | httpError st body => simp [pushOne, houtcome]
          | threw m => simp [pushOne, houtcome]
      · have hne : sess.activityId ≠ e.activityId := hrest sess hmem'
        have hstep : cronStoreGet (pushOne outcome now cs e).store sess.activityId =
            cronStoreGet cs.store sess.activityId := by
          cases houtcome : outcome e.activityId with
          | ok =>
              simp only [pushOne, houtcome]
              exact cronStoreGet_set_ne cs.store _ _ hne
          | httpError st body => simp [pushOne, houtcome]
          | threw m => simp [pushOne, houtcome]
        have := ih (pushOne outcome now cs e) (List.nodup_cons.mp hnd).2 hmem'
        constructor
        · intro hok
          rw [List.foldl_cons]
          exact this.1 hok
        · intro hfail
          rw [List.foldl_cons, this.2 hfail, hstep]

/-! ## Helper lemmas: KV store scan -/

theorem kvGet_filter_ne (l : List (String × ActivitySession)) (id j : String)
    (h : j ≠ id) :
    kvGet (l.filter (fun p => ¬ p.1 = id)) j = kvGet l j := by
  induction l with
  | nil => rfl
  | cons p rest ih =>
      simp only [List.filter_cons]
      by_cases hp : p.1 = id
      · rw [if_neg (by simpa using hp)]
        have hpj : ¬ p.1 = j := fun hc => h (hc.symm.trans hp)
        rw [ih]
        simp only [kvGet, if_neg hpj]
      · rw [if_pos (by simpa using hp)]
        simp only [kvGet]
        by_cases hj : p.1 = j
        · rw [if_pos hj, if_pos hj]
        · rw [if_neg hj, if_neg hj, ih]

theorem kvGet_filter_self (l : List (String × ActivitySession)) (id : String) :
    kvGet (l.filter (fun p => ¬ p.1 = id)) id = none := by
  induction l with
  | nil => rfl
  | cons p rest ih =>
      simp only [List.filter_cons]
      by_cases hp : p.1 = id
      · rw [if_neg (by simpa using hp)]
        exact ih
      · rw [if_pos (by simpa using hp)]
        simp only [kvGet, if_neg hp]
        exact ih

theorem kvGet_remove_self (s : KVStore) (id : String) :
    kvGet (kvRemoveActivity s id).records id = none :=
  kvGet_filter_self s.records id

theorem kvGet_remove_ne (s : KVStore) (id j : String) (h : j ≠ id) :
    kvGet (kvRemoveActivity s id).records j = kvGet s.records j :=
  kvGet_filter_ne s.records id j h

theorem kvGet_remove_none (s : KVStore) (id j : String)
    (h : kvGet s.records j = none) :
    kvGet (kvRemoveActivity s id).records j = none := by
  by_cases hj : j = id
  · subst hj; exact kvGet_remove_self s j
  · rw [kvGet_remove_ne s id j hj]; exact h

theorem kvScanActive_fresh (now t : Int) (index : List String) (s : KVStore)
    (acc : List ActivitySession) (hacc : ∀ x ∈ acc, now - x.lastUpdated < t) :
    ∀ x ∈ (kvScanActive now t index s acc).1, now - x.lastUpdated < t := by
  induction index generalizing s acc with
  | nil => exact hacc
  | cons id rest ih =>
      cases hget : kvGet s.records id with
      | none =>
          simp only [kvScanActive, hget]
          exact ih s acc hacc
      | some sess =>
          simp only [kvScanActive, hget]
          by_cases hfresh : now - sess.lastUpdated < t
          · rw [if_pos hfresh]
            apply ih
            intro x hx
            rcases List.mem_append.mp hx with hx' | hx'
            · exact hacc x hx'
            · rw [List.mem_singleton.mp hx']; exact hfresh
          · rw [if_neg hfresh]
            exact ih _ acc hacc

theorem kvScanActive_acc_mem (now t : Int) (index : List String) (s : KVStore)
    (acc : List ActivitySession) (x : ActivitySession) (hx : x ∈ acc) :
    x ∈ (kvScanActive now t index s acc).1 := by
  induction index generalizing s acc with
  | nil => exact hx
  | cons id rest ih =>
      cases hget : kvGet s.records id with
      | none =>
          simp only [kvScanActive, hget]
          exact ih s acc hx
      | some sess =>
          simp only [kvScanActive, hget]
          by_cases hfresh : now - sess.lastUpdated < t
          · rw [if_pos hfresh]
            exact ih s _ (List.mem_append.mpr (Or.inl hx))
          · rw [if_neg hfresh]
            exact ih _ acc hx

theorem kvScanActive_complete (now t : Int) (index : List String) (s : KVStore)
    (acc : List ActivitySession) (id : String) (sess : ActivitySession)
    (hid : id ∈ index) (hget : kvGet s.records id = some sess)
    (hfresh : now - sess.lastUpdated < t) :
    sess ∈ (kvScanActive now t index s acc).1 := by
  induction index generalizing s acc with
  | nil => cases hid
  | cons j rest ih =>
      by_cases hj : j = id
      · subst hj
        simp only [kvScanActive, hget]
        rw [if_pos hfresh]
        exact kvScanActive_acc_mem now t rest s _ sess
          (List.mem_append.mpr (Or.inr (List.mem_singleton.mpr rfl)))
      · have hid' : id ∈ rest := by
          rcases List.mem_cons.mp hid with hc | hc
          · exact absurd hc.symm hj
          · exact hc
        cases hgetj : kvGet s.records j with
        | none =>
            simp only [kvScanActive, hgetj]
            exact ih s acc hid' hget
        | some sessj =>
            simp only [kvScanActive, hgetj]
            by_cases hfreshj : now - sessj.lastUpdated < t
            · rw [if_pos hfreshj]
              exact ih s _ hid' hget
            · rw [if_neg hfreshj]
              refine ih _ acc hid' ?_
              rw [kvGet_remove_ne s j id (fun hc => hj hc.symm)]
              exact hget

theorem kvScanActive_none_persists (now t : Int) (index : List String)
    (s : KVStore) (acc : List ActivitySession) (id : String)
    (h : kvGet s.records id = none) :
    kvGet (kvScanActive now t index s acc).2.records id = none := by
  induction index generalizing s acc with
  | nil => exact h
  | cons j rest ih =>
      cases hgetj : kvGet s.records j with
      | none =>
          simp only [kvScanActive, hgetj]
          exact ih s acc h
      | some sessj =>
          simp only [kvScanActive, hgetj]
          by_cases hfreshj : now - sessj.lastUpdated < t
          · rw [if_pos hfreshj]
            exact ih s _ h
          · rw [if_neg hfreshj]
            exact ih _ acc (kvGet_remove_none s j id h)

theorem kvScanActive_prunes (now t : Int) (index : List String) (s : KVStore)
    (acc : List ActivitySession) (id : String) (sess : ActivitySession)
    (hid : id ∈ index) (hget : kvGet s.records id = some sess)
    (hstale : now - sess.lastUpdated ≥ t) :
    kvGet (kvScanActive now t index s acc).2.records id = none := by
  induction index generalizing s acc with
  | nil => cases hid
  | cons j rest ih =>
      by_cases hj : j = id
      · subst hj
        simp only [kvScanActive, hget]
        rw [if_neg (not_lt.mpr hstale)]
        exact kvScanActive_none_persists now t rest _ acc j (kvGet_remove_self s j)
      · have hid' : id ∈ rest := by
          rcases List.mem_cons.mp hid with hc | hc
          · exact absurd hc.symm hj
          · exact hc
        cases hgetj : kvGet s.records j with
        | none =>
            simp only [kvScanActive, hgetj]
            exact ih s acc hid' hget
        | some sessj =>
            simp only [kvScanActive, hgetj]
            by_cases hfreshj : now - sessj.lastUpdated < t
            · rw [if_pos hfreshj]
              exact ih s _ hid' hget
            · rw [if_neg hfreshj]
              refine ih _ acc hid' ?_
              rw [kvGet_remove_ne s j id (fun hc => hj hc.symm)]
              exact hget

/-! ## Helper lemmas: token signer -/

theorem generateJWTEntry_joined (c : APNsConfig) (pem : Bool) (now : Int)
    (st : SignerState) (p : Nat)
    (hcold : ¬ (st.jwtToken.isSome ∧ now < st.jwtTokenExpiry - 300))
    (hp : st.jwtTokenPromise = some p) :
    generateJWTEntry (some c) pem now st = (st, .joined p) := by
  simp only [generateJWTEntry, if_neg hcold, hp]

theorem generateJWTEntry_started (c : APNsConfig) (now : Int) (st : SignerState)
    (hcold : ¬ (st.jwtToken.isSome ∧ now < st.jwtTokenExpiry - 300))
    (hp : st.jwtTokenPromise = none) :
    generateJWTEntry (some c) true now st =
      ({ st with jwtTokenPromise := some st.opsStarted,
                 opsStarted := st.opsStarted + 1 },
       .started st.opsStarted) := by
  simp only [generateJWTEntry, if_neg hcold, hp, if_pos trivial]

theorem iterateJWTEntries_joined (c : APNsConfig) (pem : Bool) (now : Int)
    (st : SignerState) (p : Nat) (n : Nat)
    (hcold : ¬ (st.jwtToken.isSome ∧ now < st.jwtTokenExpiry - 300))
    (hp : st.jwtTokenPromise = some p) :
    iterateJWTEntries (some c) pem now n st =
      (st, List.replicate n (.joined p)) := by
  induction n with
  | zero => rfl
  | succ k ih =>
      simp only [iterateJWTEntries, generateJWTEntry_joined c pem now st p hcold hp,
        ih, List.replicate_succ]

/-! ## Claims -/

/-- Claim C1, counterexample to the claim as stated: a tracked session with
`isCharging = false` whose provider end-send fails is NOT removed by the
orchestrator cycle — `get` still returns it afterwards (the source removes
only after `result.ok`), even though the `end` operation was attempted. -/
theorem claim_C1_counterexample :
    ("A3", OpKind.endOp) ∈
      (updateLiveActivitiesCycle [sessA3] 1000 (fun _ => false)).ops ∧
    getActivity (updateLiveActivitiesCycle [sessA3] 1000 (fun _ => false)).store
      "A3" = some sessA3 := by
  decide

/-- Claim C1, amended: for every fresh tracked session with
`isCharging = false`, one orchestrator cycle sends an `end` operation via the
provider client; the session is then removed exactly when the end send
succeeds — after a successful send `get` returns null, after a failed send the
session is still in the store (retried next cycle). -/
theorem claim_C1_theorem (s : Store) (now : Int) (f : String → Bool)
    (sess : ActivitySession)
    (hnd : (s.map (fun e => e.activityId)).Nodup)
    (hmem : sess ∈ s)
    (hfresh : now - sess.lastUpdated < 10 * 60 * 1000)
    (hnc : sess.state.isCharging = false) :
    ((sess.activityId, OpKind.endOp) ∈ (updateLiveActivitiesCycle s now f).ops) ∧
    (f sess.activityId = true →
      getActivity (updateLiveActivitiesCycle s now f).store sess.activityId = none) ∧
    (f sess.activityId = false →
      getActivity (updateLiveActivitiesCycle s now f).store sess.activityId =
        some sess) := by
  have hcycle : updateLiveActivitiesCycle s now f =
      ((getAllActiveActivitiesMem ((cleanupStaleActivities s now (10 * 60 * 1000)).1)
          now (10 * 60 * 1000)).1).foldl (processSession f)
        ⟨(cleanupStaleActivities s now (10 * 60 * 1000)).1, [], 0, 0⟩ := rfl
  have hs1mem : sess ∈ (cleanupStaleActivities s now (10 * 60 * 1000)).1 := by
    refine List.mem_filter.mpr ⟨hmem, ?_⟩
    simpa using hfresh
  have hactive : sess ∈ (getAllActiveActivitiesMem
      ((cleanupStaleActivities s now (10 * 60 * 1000)).1) now (10 * 60 * 1000)).1 := by
    refine List.mem_filter.mpr ⟨hs1mem, ?_⟩
    simpa using hfresh
  have hnd1 : (((cleanupStaleActivities s now (10 * 60 * 1000)).1).map
      (fun e => e.activityId)).Nodup :=
    mem_filter_map_nodup (fun e => e.activityId) _ s hnd
  refine ⟨?_, ?_, ?_⟩
  · rw [hcycle, processSession_fold_ops]
    simp only [List.nil_append]
    exact List.mem_map.mpr ⟨sess, hactive, by simp [hnc]⟩
  · intro hok
    rw [hcycle]
    exact processSession_fold_removes f sess _ _ hactive hnc hok
  · intro hfail
    rw [hcycle, processSession_fold_frame f sess.activityId hfail]
    exact getActivity_of_mem_nodup _ sess hnd1 hs1mem

/-- Claim C1, witness: with a succeeding end-send the charging-stopped
session is removed, and the end operation appears in the cycle's log. -/
theorem claim_C1_witness :
    getActivity (updateLiveActivitiesCycle [sessA3] 1000 (fun _ => true)).store
      "A3" = none ∧
    ("A3", OpKind.endOp) ∈
      (updateLiveActivitiesCycle [sessA3] 1000 (fun _ => true)).ops := by
  have h := claim_C1_theorem [sessA3] 1000 (fun _ => true) sessA3
    (by decide) (by decide) (by decide) (by decide)
  exact ⟨h.2.1 rfl, h.1⟩

/-- Claim C2, counterexample to the claim as stated: on the in-memory store,
a session 11 minutes old against a 10-minute threshold is (correctly) absent
from `listActive`'s result, but it is NOT removed from the store — a
subsequent `get` still returns it, not null. -/
theorem claim_C2_counterexample :
    (getAllActiveActivitiesMem [sessA2] 660000 600000).1 = [] ∧
    getActivity (getAllActiveActivitiesMem [sessA2] 660000 600000).2 "A2" =
      some sessA2 := by
  decide

/-- Claim C2, amended: `listActive` returns only sessions with
`now - lastUpdated < threshold` in both drafts (the in-memory draft is the
exact filter and leaves the store untouched); in the KV-backed draft every
indexed session strictly younger than the threshold is returned, and every
indexed session at or beyond the threshold is removed from the store during
the scan, so a subsequent `get` on it returns null. -/
theorem claim_C2_theorem (s : Store) (kv : KVStore) (now t : Int) :
    ((getAllActiveActivitiesMem s now t).1 =
        s.filter (fun e => now - e.lastUpdated < t) ∧
     (getAllActiveActivitiesMem s now t).2 = s) ∧
    (∀ x ∈ (getAllActiveActivitiesKV kv now t (.ok kv.index)).1,
        now - x.lastUpdated < t) ∧
    (∀ id sess, id ∈ kv.index → kvGetActivity kv id = some sess →
        now - sess.lastUpdated < t →
        sess ∈ (getAllActiveActivitiesKV kv now t (.ok kv.index)).1) ∧
    (∀ id sess, id ∈ kv.index → kvGetActivity kv id = some sess →
        now - sess.lastUpdated ≥ t →
        kvGetActivity (getAllActiveActivitiesKV kv now t (.ok kv.index)).2 id =
          none) := by
  refine ⟨⟨rfl, rfl⟩, ?_, ?_, ?_⟩
  · exact kvScanActive_fresh now t kv.index kv [] (by intro x hx; cases hx)
  · intro id sess hid hget hfresh
    exact kvScanActive_complete now t kv.index kv [] id sess hid hget hfresh
  · intro id sess hid hget hstale
    exact kvScanActive_prunes now t kv.index kv [] id sess hid hget hstale

/-- Claim C2, witness: on a KV store with one fresh and one stale session,
the fresh one is returned and the stale one's record is gone afterwards. -/
theorem claim_C2_witness :
    sessF1 ∈ (getAllActiveActivitiesKV kvEx 660000 600000 (.ok kvEx.index)).1 ∧
    kvGetActivity (getAllActiveActivitiesKV kvEx 660000 600000 (.ok kvEx.index)).2
      "S1" = none := by
  have h := claim_C2_theorem [] kvEx 660000 600000
  exact ⟨h.2.2.1 "F1" sessF1 (by decide) (by decide) (by decide),
         h.2.2.2 "S1" sessS1 (by decide) (by decide) (by decide)⟩

/-- Claim C3: on the JS event loop, any number n+1 of near-simultaneous
`generateJWT()` callers hitting a cold or expired cache (no token cached
validly, no promise in flight) with a configured client and well-formed key
material trigger exactly one signing operation: the first caller registers it
and every later caller joins the same in-flight promise (so its settled
result — token or failure — is what each of them receives), and the
signing-operation counter rises by exactly one. -/
theorem claim_C3_theorem (c : APNsConfig) (now : Int) (st : SignerState) (n : Nat)
    (hcold : ¬ (st.jwtToken.isSome ∧ now < st.jwtTokenExpiry - 300))
    (hpromise : st.jwtTokenPromise = none) :
    (iterateJWTEntries (some c) true now (n + 1) st).2 =
      .started st.opsStarted :: List.replicate n (.joined st.opsStarted) ∧
    (iterateJWTEntries (some c) true now (n + 1) st).1.opsStarted =
      st.opsStarted + 1 ∧
    (iterateJWTEntries (some c) true now (n + 1) st).1.jwtTokenPromise =
      some st.opsStarted := by
  have hstep := generateJWTEntry_started c now st hcold hpromise
  have hrest := iterateJWTEntries_joined c true now
    { st with jwtTokenPromise := some st.opsStarted,
              opsStarted := st.opsStarted + 1 } st.opsStarted n hcold rfl
  have hall : iterateJWTEntries (some c) true now (n + 1) st =
      ({ st with jwtTokenPromise := some st.opsStarted,
                 opsStarted := st.opsStarted + 1 },
       .started st.opsStarted :: List.replicate n (.joined st.opsStarted)) := by
    simp only [iterateJWTEntries, hstep, hrest]
  rw [hall]
  exact ⟨rfl, rfl, rfl⟩

/-- Claim C3, witness: ten concurrent cold-cache callers — one signing
operation started, the other nine joined to it. -/
theorem claim_C3_witness :
    (iterateJWTEntries (some cfgEx) true 1000000 10 signerCold).2 =
      .started 0 :: List.replicate 9 (.joined 0) ∧
    (iterateJWTEntries (some cfgEx) true 1000000 10 signerCold).1.opsStarted = 1 := by
  have h := claim_C3_theorem cfgEx 1000000 signerCold 9 (by decide) rfl
  exact ⟨h.1, h.2.1⟩

/-- Claim C4, counterexample to the claim's stronger half: on a successful
delivery the push-updates orchestrator DOES modify the session — it sets
`lastUpdate` to the cycle time and writes the record back, so the stored
record differs from the original. -/
theorem claim_C4_counterexample :
    cronStoreGet (pushUpdatesCycle [cronSessA1] 5000 (fun _ => .ok)).store "A1" =
      some { cronSessA1 with lastUpdate := 5000 } ∧
    ¬ ((pushUpdatesCycle [cronSessA1] 5000 (fun _ => .ok)).store =
        [cronSessA1]) := by
  decide

/-- Claim C4, amended: for every session whose delivery attempt fails
(non-2xx response or thrown exception) the session record, including its
timestamp, is unchanged after the cycle; on a successful delivery the
orchestrator sets the session's `lastUpdate` to the cycle time and writes it
back to the store. -/
theorem claim_C4_theorem (s : CronStore) (now : Int)
    (outcome : String → PushOutcome) (sess : CronSession)
    (hnd : (s.map (fun e => e.activityId)).Nodup)
    (hmem : sess ∈ s) :
    (outcome sess.activityId ≠ .ok →
      cronStoreGet (pushUpdatesCycle s now outcome).store sess.activityId =
        some sess) ∧
    (outcome sess.activityId = .ok →
      cronStoreGet (pushUpdatesCycle s now outcome).store sess.activityId =
        some { sess with lastUpdate := now }) := by
  have hcycle : pushUpdatesCycle s now outcome =
      s.foldl (pushOne outcome now) ⟨s, 0, 0⟩ := rfl
  have h := pushOne_fold_get outcome now sess s ⟨s, 0, 0⟩ hnd hmem
  constructor
  · intro hfail
    rw [hcycle, h.2 hfail]
    exact cronStoreGet_of_mem_nodup s sess hnd hmem
  · intro hok
    rw [hcycle]
    exact h.1 hok

/-- Claim C4, witness: a failing delivery leaves the stored record
untouched. -/
theorem claim_C4_witness :
    cronStoreGet
      (pushUpdatesCycle [cronSessA1] 5000 (fun _ => .httpError 400 "bad")).store
      "A1" = some cronSessA1 := by
  exact (claim_C4_theorem [cronSessA1] 5000 (fun _ => .httpError 400 "bad")
    cronSessA1 (by decide) (by decide)).1 (by decide)

/-- Claim C5: `sendLiveActivityUpdate` always yields a structured result —
every execution path ends in success, or in failure with a populated error; a
2xx response yields success with the `apns-id` header as the delivery id
(`'unknown'` when the header is absent); any other status yields failure with
an error carrying the status and raw body; a thrown signing call or a thrown
transport call yields a structured failure carrying the exception message. -/
theorem claim_C5_theorem :
    (∀ (config : Option APNsConfig) (jwtO : JWTOutcome) (fetchO : FetchOutcome),
        (sendLiveActivityUpdate config jwtO fetchO).success = true ∨
        ((sendLiveActivityUpdate config jwtO fetchO).success = false ∧
         (sendLiveActivityUpdate config jwtO fetchO).error ≠ none)) ∧
    (∀ (c : APNsConfig) (j : String) (status : Int) (apnsId : Option String)
        (body : String), 200 ≤ status → status ≤ 299 →
        sendLiveActivityUpdate (some c) (.token j) (.response status apnsId body) =
          ⟨true, some (apnsId.getD "unknown"), none⟩) ∧
    (∀ (c : APNsConfig) (j : String) (status : Int) (apnsId : Option String)
        (body : String), ¬ (200 ≤ status ∧ status ≤ 299) →
        sendLiveActivityUpdate (some c) (.token j) (.response status apnsId body) =
          ⟨false, none,
           some ("APNs error: " ++ toString status ++ " - " ++ body)⟩) ∧
    (∀ (c : APNsConfig) (j m : String),
        sendLiveActivityUpdate (some c) (.token j) (.threw m) =
          ⟨false, none, some m⟩) ∧
    (∀ (c : APNsConfig) (m : String) (fetchO : FetchOutcome),
        sendLiveActivityUpdate (some c) (.threw m) fetchO =
          ⟨false, none, some m⟩) := by
  refine ⟨?_, ?_, ?_, ?_, ?_⟩
  · intro config jwtO fetchO
    cases config with
    | none => right; simp [sendLiveActivityUpdate]
    | some c =>
        cases jwtO with
        | threw m => right; simp [sendLiveActivityUpdate]
        | token j =>
            cases fetchO with
            | threw m => right; simp [sendLiveActivityUpdate]
            | response status apnsId body =>
                by_cases hok : 200 ≤ status ∧ status ≤ 299
                · left; simp [sendLiveActivityUpdate, hok]
                · right; simp [sendLiveActivityUpdate, hok]
  · intro c j status apnsId body h1 h2
    simp only [sendLiveActivityUpdate]
    rw [if_pos ⟨h1, h2⟩]
  · intro c j status apnsId body h
    simp only [sendLiveActivityUpdate]
    rw [if_neg h]
  · intro c j m
    rfl
  · intro c m fetchO
    rfl

/-- Claim C5, witness: a 200 response with an `apns-id` header yields
`{success: true, responseId}`. -/
theorem claim_C5_witness :
    sendLiveActivityUpdate (some cfgEx) (.token "jwt1")
      (.response 200 (some "apns-id-1") "") = ⟨true, some "apns-id-1", none⟩ :=
  claim_C5_theorem.2.1 cfgEx "jwt1" 200 (some "apns-id-1") ""
    (by decide) (by decide)

/-- Claim C6: `updateActivityState` on an activity id absent from the store
returns false and is a no-op, in both the in-memory and the KV-backed draft:
no session is created and a subsequent `get` still returns null. -/
theorem claim_C6_theorem (s : Store) (kv : KVStore) (id : String)
    (st : ChargeState) (now : Int)
    (hmem : getActivity s id = none) (hkv : kvGetActivity kv id = none) :
    updateActivityState s id st now = (s, false) ∧
    getActivity (updateActivityState s id st now).1 id = none ∧
    kvUpdateActivityState kv id st now = (kv, false) ∧
    kvGetActivity (kvUpdateActivityState kv id st now).1 id = none := by
  have hkv' : kvGet kv.records id = none := hkv
  have h1 : updateActivityState s id st now = (s, false) := by
    simp only [updateActivityState, hmem]
  have h2 : kvUpdateActivityState kv id st now = (kv, false) := by
    simp only [kvUpdateActivityState, hkv']
  exact ⟨h1, by rw [h1]; exact hmem, h2, by rw [h2]; exact hkv⟩

/-- Claim C6, witness: updating an unknown id is a no-op returning false in
both store drafts. -/
theorem claim_C6_witness :
    updateActivityState [sessA3] "nope" stateEx 42 = ([sessA3], false) ∧
    kvUpdateActivityState kvEx "nope" stateEx 42 = (kvEx, false) := by
  have h := claim_C6_theorem [sessA3] kvEx "nope" stateEx 42 (by decide) (by decide)
  exact ⟨h.1, h.2.2.1⟩

/-- Claim C7, counterexample to the claim as stated: with the signing key,
key id and team id set but no bundle-identifier variable, `isConfigured()` is
already true — the claimed "all four present" equivalence fails, because the
bundle id falls back to a default. -/
theorem claim_C7_counterexample :
    ¬ (isConfigured apnsEnvNoBundle = true ↔
        (envPresent apnsEnvNoBundle.apnsKeyId = true ∧
         envPresent apnsEnvNoBundle.apnsTeamId = true ∧
         envPresent apnsEnvNoBundle.apnsKey = true ∧
         envPresent apnsEnvNoBundle.apnsBundleId = true)) := by
  decide

/-- Claim C7, amended: `isConfigured()` is true iff the signing key, the key
identifier and the issuer (team) identifier are present; the addressing
namespace (bundle identifier) is never required — it silently defaults to
`'com.gopetl.PETL'`. -/
theorem claim_C7_theorem (env : APNsEnv) :
    isConfigured env =
      (envPresent env.apnsKeyId && envPresent env.apnsTeamId &&
        envPresent env.apnsKey) := by
  by_cases h : (envPresent env.apnsKeyId && envPresent env.apnsTeamId &&
      envPresent env.apnsKey) = true
  · simp [isConfigured, loadConfig, h]
  · simp only [isConfigured, loadConfig, if_neg h, Option.isSome_none]
    exact (Bool.not_eq_true _).mp h |>.symm

/-- Claim C8, counterexample to the claim as stated: a state with negative
`minutesToFull` is sent unclamped both by the direct APNs client's
`content-state` and by `callOneSignal`'s `event_updates`. -/
theorem claim_C8_counterexample :
    (apnsContentState negEtaState).timeToFullMinutes = -5 ∧
    ¬ (0 ≤ (apnsContentState negEtaState).timeToFullMinutes) ∧
    (oneSignalUpdateEventUpdates (some negEtaState)).timeToFullMinutes = -5 := by
  decide

/-- Claim C8, amended: only the orchestrator's inline provider payload clamps
`minutesToFull` with `Math.max(0, ·)`; the direct APNs payload and the
provider push client's payload carry the value through unmodified. -/
theorem claim_C8_theorem (st : ChargeState) :
    0 ≤ (cronEventUpdates st.soc st.watts st.timeToFullMinutes
          st.isCharging).timeToFullMinutes ∧
    (cronEventUpdates st.soc st.watts st.timeToFullMinutes
        st.isCharging).timeToFullMinutes = max 0 st.timeToFullMinutes ∧
    (apnsContentState st).timeToFullMinutes = st.timeToFullMinutes ∧
    (oneSignalUpdateEventUpdates (some st)).timeToFullMinutes =
      st.timeToFullMinutes :=
  ⟨le_max_left 0 st.timeToFullMinutes, rfl, rfl, rfl⟩

/-- Claim C9, counterexample to the claim as stated: in the `part_009` draft
of the scheduler trigger, a request with an unconfigured secret is rejected
with 401 no matter what header it carries — the claimed "cycle runs when the
secret is not configured" edge case fails there, while the `route.ts` draft
lets the same request through. -/
theorem claim_C9_counterexample :
    rejectsRequestV2 none (some "Bearer s3cret") = true ∧
    rejectsRequestV1 none (some "Bearer s3cret") = false := by
  decide

/-- Claim C9, amended: the `route.ts` scheduler trigger rejects with 401
exactly when a secret is configured and the authorization header differs from
`Bearer <secret>`; otherwise (including the unconfigured-secret edge case) it
runs one reconciliation cycle and returns its summary counts.  The `part_009`
draft additionally rejects every request when the secret is unconfigured. -/
theorem claim_C9_theorem (sec hdr : Option String) (s : Store) (now : Int)
    (f : String → Bool) :
    (rejectsRequestV1 sec hdr = true ↔
      (envPresent sec = true ∧ hdr ≠ some ("Bearer " ++ sec.getD ""))) ∧
    (rejectsRequestV2 sec hdr = true ↔
      (envPresent sec = false ∨ hdr ≠ some ("Bearer " ++ sec.getD ""))) ∧
    (rejectsRequestV1 sec hdr = true →
      updateLiveActivitiesGET sec hdr s now f = (.unauthorized, s)) ∧
    (rejectsRequestV1 sec hdr = false →
      updateLiveActivitiesGET sec hdr s now f =
        (.summary (updateLiveActivitiesCycle s now f).succeeded
            (updateLiveActivitiesCycle s now f).failed
            (updateLiveActivitiesCycle s now f).ops.length,
         (updateLiveActivitiesCycle s now f).store)) := by
  refine ⟨?_, ?_, ?_, ?_⟩
  · simp [rejectsRequestV1, Bool.and_eq_true]
  · simp [rejectsRequestV2, Bool.or_eq_true, Bool.not_eq_true', beq_eq_false_iff_ne]
  · intro h
    simp [updateLiveActivitiesGET, h]
  · intro h
    simp [updateLiveActivitiesGET, h]

/-- Claim C9, witness: with no secret configured, the `route.ts` trigger runs
the (empty-store) cycle and returns the summary rather than 401. -/
theorem claim_C9_witness :
    updateLiveActivitiesGET none (some "Bearer s3cret") [] 0 (fun _ => true) =
      (.summary 0 0 0, []) := by
  have h := (claim_C9_theorem none (some "Bearer s3cret") [] 0
    (fun _ => true)).2.2.2 rfl
  exact h.trans rfl

/-- Claim C10: when the KV enumeration of the index raises, the KV-backed
`getAllActiveActivities` catches the error and returns the empty list instead
of propagating — the store itself is left as it was, every record still
readable. -/
theorem claim_C10_theorem (s : KVStore) (now t : Int) (e : String) :
    (getAllActiveActivitiesKV s now t (.error e)).1 = [] ∧
    (getAllActiveActivitiesKV s now t (.error e)).2 = s ∧
    ∀ id, kvGetActivity (getAllActiveActivitiesKV s now t (.error e)).2 id =
      kvGetActivity s id :=
  ⟨rfl, rfl, fun _ => rfl⟩

end PetlLiveLA
